import Mathlib

/-!
Verification development for the MCP server supervisor core
(`src-tauri/src/core/mcp/helpers.rs`, `models.rs`, `state.rs`).

The Rust code is shallowly embedded: pure helpers become Lean functions;
stateful async code becomes explicit state passing over a small state record,
with the outcome of each suspension point (spawn, connect, timeout, health
probe, UI reply) supplied by an explicit environment record.  `u64`/`u32`
machine integers are modelled as `Nat` (the operations involved never
overflow on the inputs the theorems speak about); the `f64` backoff
multiplier is modelled as `ℚ` with the Rust `as u64` cast modelled as
`Nat.floor` (which, like the saturating Rust cast, sends negative values
to `0`).  Fallible Rust functions returning `Result<T, String>` become
`Except String T`.
-/

namespace Jan

/-! ### A model of `serde_json::Value` -/

/-- Model of `serde_json::Value`.  Numbers are modelled as `ℚ` (covering the
integer and float cases that the config code inspects); objects are modelled
as association lists keyed by `String`. -/
inductive JValue where
  | null : JValue
  | jbool : Bool → JValue
  | num : ℚ → JValue
  | str : String → JValue
  | arr : List JValue → JValue
  | obj : List (String × JValue) → JValue

/-! ### Association-list primitives, modelling `HashMap` / JSON-object access -/

/-- Lookup in an association list (first match wins), modelling
`HashMap::get` / `serde_json::Map::get`. -/
def alist_get {α : Type} (k : String) : List (String × α) → Option α
  | [] => none
  | (k2, v) :: rest => if k2 = k then some v else alist_get k rest

/-- Remove every binding of key `k`, modelling `HashMap::remove`. -/
def alist_remove {α : Type} (k : String) (l : List (String × α)) : List (String × α) :=
  l.filter (fun p => p.1 ≠ k)

/-- Insert (replacing any previous binding), modelling `HashMap::insert`. -/
def alist_insert {α : Type} (k : String) (v : α) (l : List (String × α)) :
    List (String × α) :=
  (k, v) :: alist_remove k l

/-- Membership test, modelling `HashMap::contains_key`. -/
def alist_contains {α : Type} (k : String) (l : List (String × α)) : Bool :=
  (alist_get k l).isSome

/-! ### `serde_json::Value` accessors used by the config code -/

/-- Model of `Value::as_object`. -/
def JValue.as_object : JValue → Option (List (String × JValue))
  | .obj fs => some fs
  | _ => none

/-- Model of `Value::as_str`. -/
def JValue.as_str : JValue → Option String
  | .str s => some s
  | _ => none

/-- Model of `Value::as_bool`. -/
def JValue.as_bool : JValue → Option Bool
  | .jbool b => some b
  | _ => none

/-- Model of `Value::as_array`. -/
def JValue.as_array : JValue → Option (List JValue)
  | .arr xs => some xs
  | _ => none

/-- Model of `Value::as_u64`: defined exactly on non-negative integral
numbers below `2^64`. -/
def JValue.as_u64 : JValue → Option ℕ
  | .num q => if q.den = 1 ∧ 0 ≤ q.num ∧ q.num < 2 ^ 64 then some q.num.toNat else none
  | _ => none

/-- Model of `Value::get(key)` on JSON values (returns `None` on
non-objects). -/
def JValue.get (v : JValue) (key : String) : Option JValue :=
  v.as_object.bind (alist_get key)

/-! ### `McpSettings` (from `models.rs`) and the backoff schedule -/

/-- Model of `McpSettings` (`models.rs`).  `backoff_multiplier: f64` is
modelled as `ℚ`; the claims only evaluate it at values on which `f64`
arithmetic is exact. -/
structure McpSettings where
  tool_call_timeout_seconds : ℕ
  base_restart_delay_ms : ℕ
  max_restart_delay_ms : ℕ
  backoff_multiplier : ℚ
deriving DecidableEq, Repr

/-- Model of `McpSettings::tool_call_timeout_duration` (seconds, clamped to a
minimum of 1). -/
def McpSettings.tool_call_timeout_duration (s : McpSettings) : ℕ :=
  max s.tool_call_timeout_seconds 1

/-- Model of `calculate_exponential_backoff_delay` (`helpers.rs:174`).
The Rust body computes `base * multiplier.powi(count - 1)` in `f64` and
casts with `as u64` (truncation towards zero, saturating at `0` for
negatives), then caps the result — including the `count == 0` case — with
`.min(max_delay)`.  The `f64` product is modelled exactly over `ℚ` and the
cast as `Nat.floor`. -/
def calculate_exponential_backoff_delay (restart_count : ℕ) (settings : McpSettings) : ℕ :=
  let base_delay := settings.base_restart_delay_ms
  let max_delay := settings.max_restart_delay_ms
  let multiplier := settings.backoff_multiplier
  let delay : ℕ :=
    if restart_count = 0 then base_delay
    else ⌊(base_delay : ℚ) * multiplier ^ (restart_count - 1)⌋₊
  min delay max_delay

/-! ### Config extraction helpers (`extract_command_args`, `extract_active_status`) -/

/-- Model of `McpServerConfig` (`models.rs`). `timeout: Option<Duration>` is
modelled as the number of seconds. -/
structure McpServerConfig where
  transport_type : Option String
  url : Option String
  command : String
  args : List JValue
  envs : List (String × JValue)
  timeout : Option ℕ
  headers : List (String × JValue)

/-- Model of `extract_command_args` (`helpers.rs:912`): `command` and `args`
are mandatory; `headers`/`env` default to empty objects but must be objects
when present. -/
def extract_command_args (config : JValue) : Option McpServerConfig := do
  let o ← config.as_object
  let command ← (← alist_get "command" o).as_str
  let args ← (← alist_get "args" o).as_array
  let url := (alist_get "url" o).bind JValue.as_str
  let transport_type := (alist_get "type" o).bind JValue.as_str
  let timeout := (alist_get "timeout" o).bind JValue.as_u64
  let headers ← ((alist_get "headers" o).getD (JValue.obj [])).as_object
  let envs ← ((alist_get "env" o).getD (JValue.obj [])).as_object
  pure { transport_type := transport_type, url := url, command := command,
         args := args, envs := envs, timeout := timeout, headers := headers }

/-- Model of `extract_active_status` (`helpers.rs:943`). -/
def extract_active_status (config : JValue) : Option Bool := do
  let o ← config.as_object
  let a ← alist_get "active" o
  a.as_bool

/-! ### Elicitation bridge (`JanClientHandler::create_elicitation`, `helpers.rs:74`) -/

/-- Model of `ElicitAction` (`models.rs`): the action reported by the UI. -/
inductive ElicitAction where
  | accept
  | decline
  | cancel
deriving DecidableEq, Repr

/-- Model of `ElicitResponse` (`models.rs`): the UI reply carried over the
oneshot channel. -/
structure ElicitResponse where
  action : ElicitAction
  content : Option JValue

/-- Model of `rmcp::model::ElicitationAction`, the action returned to the MCP
server. -/
inductive ElicitationAction where
  | accept
  | decline
  | cancel
deriving DecidableEq, Repr

/-- Model of `rmcp::model::CreateElicitationResult`. -/
structure CreateElicitationResult where
  action : ElicitationAction
  content : Option JValue

/-- Model of `ElicitRequest` (`models.rs`). -/
structure ElicitRequest where
  id : String
  server : String
  message : String
  requested_schema : JValue

/-- Pending-elicitation table: the `pending_elicitations`
`HashMap<String, PendingElicitation>` keyed by elicitation id.  The oneshot
sender inside `PendingElicitation` is not represented; delivery of the reply
is modelled by the `AwaitOutcome` below. -/
def PendingTable : Type := List (String × ElicitRequest)

/-- Outcome of `timeout(300s, response_rx).await` in `create_elicitation`:
`reply` models `Ok(Ok(response))`, `channelClosed` models `Ok(Err(_))`
(sender dropped), `timedOut` models `Err(_)` (the 300 s timer fired). -/
inductive AwaitOutcome where
  | reply : ElicitResponse → AwaitOutcome
  | channelClosed : AwaitOutcome
  | timedOut : AwaitOutcome

/-- The action translation performed in the `Ok(Ok(response))` arm of
`create_elicitation` (`helpers.rs:136`). -/
def map_elicit_action : ElicitAction → ElicitationAction
  | .accept => .accept
  | .decline => .decline
  | .cancel => .cancel

/-- Model of `JanClientHandler::create_elicitation` (`helpers.rs:74`) as a
function of the pending table.  `pending0` is the table when the callback
arrives; the entry is inserted, the `mcp-elicitation` event is emitted
(`emitOk` tells whether `emit` succeeded), and the reply channel is awaited.
`concurrent` models whatever other tasks (in particular the UI-side reply
command) do to the table while the callback is suspended on the channel.
Returns the `CreateElicitationResult` and the final table. -/
def create_elicitation (pending0 : PendingTable) (eid server message : String)
    (schema : JValue) (emitOk : Bool) (concurrent : PendingTable → PendingTable)
    (outcome : AwaitOutcome) : CreateElicitationResult × PendingTable :=
  let req : ElicitRequest :=
    { id := eid, server := server, message := message, requested_schema := schema }
  let p1 : PendingTable := alist_insert eid req pending0
  if emitOk = false then
    ({ action := .cancel, content := none }, alist_remove eid p1)
  else
    let p2 := concurrent p1
    match outcome with
    | .reply r => ({ action := map_elicit_action r.action, content := r.content }, p2)
    | .channelClosed => ({ action := .cancel, content := none }, alist_remove eid p2)
    | .timedOut => ({ action := .cancel, content := none }, alist_remove eid p2)

/-- Modelled from the spec: the UI-side reply command (not under `src/`;
§4.5 / §6 of the spec: it "looks up `id`, takes the reply sender, and fulfils
it", which removes the entry from the pending table).  Only its effect on the
table is modelled; fulfilling the sender is what makes the `reply` outcome of
`create_elicitation` fire. -/
def resolve_elicitation (pending : PendingTable) (eid : String) : PendingTable :=
  alist_remove eid pending

/-! ### Health monitor (`monitor_mcp_server_handle`, `helpers.rs:327`) -/

/-- Model of `rmcp::service::QuitReason`. -/
inductive QuitReason where
  | cancelled
  | closed
  | joinError
deriving DecidableEq, Repr

/-- One observation per iteration of the monitor loop: either the shutdown
flag was found set, or the entry was gone from the shared map, or the
`list_tools` probe succeeded (`Ok(Ok(_))`), or it failed (`Ok(Err(_))` or the
2 s timeout `Err(_)`, which the code treats identically). -/
inductive MonitorObs where
  | shutdownSet
  | entryAbsent
  | probeOk
  | probeFailed
deriving DecidableEq, Repr

/-- Model of `monitor_mcp_server_handle` (`helpers.rs:327`) over a finite
trace of per-iteration observations.  Returns `none` when the trace is
exhausted with the loop still running, and `some r` when the loop returns
with value `r : Option QuitReason` (the Rust return type).  On
`probeFailed` the code also removes the entry from the shared map and
cancels the client; those side effects are not needed by the claims. -/
def monitor_mcp_server_handle : List MonitorObs → Option (Option QuitReason)
  | [] => none
  | .shutdownSet :: _ => some (some .closed)
  | .entryAbsent :: _ => some (some .closed)
  | .probeFailed :: _ => some (some .closed)
  | .probeOk :: rest => monitor_mcp_server_handle rest

/-- The restart engine's decision on the monitor's quit reason
(`helpers.rs:542`): `Some(reason)` is treated as unexpected termination
(`should_restart = true`), `None` as a manual stop (`should_restart =
false`). -/
def should_restart_after_quit : Option QuitReason → Bool
  | some _ => true
  | none => false

/-! ### Restart engine (`start_restart_loop`, `helpers.rs:434`) -/

/-- Environment of one iteration of the restart loop: the outcome of the
`schedule_mcp_start_task` call, the value of the
`successfully_connected` flag for this server as read right after the
launch (`passed_verification` / the `Err` arm's `was_connected`), as read
after the monitor returns (`was_connected`), and the monitor's quit
reason. -/
structure RestartIterEnv where
  launchOk : Bool
  connectedAfterLaunch : Bool
  connectedAfterMonitor : Bool
  monitorQuit : Option QuitReason
deriving DecidableEq, Repr

/-- Model of `start_restart_loop` (`helpers.rs:434`).  `count` is the
server's entry in `restart_counts` (0 when absent), `launches` counts the
`schedule_mcp_start_task` calls made so far, and the list supplies the
environment of each successive iteration (exhausting it means the loop is
still running).  Returns the final `(count, launches)`. -/
def start_restart_loop (max_restarts : ℕ) : ℕ → ℕ → List RestartIterEnv → ℕ × ℕ
  | count, launches, [] => (count, launches)
  | count, launches, e :: rest =>
    let c := count + 1
    if c > max_restarts then
      (c, launches)
    else if e.launchOk then
      if e.connectedAfterLaunch = false then
        (c, launches + 1)
      else if e.connectedAfterMonitor = false then
        (0, launches + 1)
      else if should_restart_after_quit e.monitorQuit then
        start_restart_loop max_restarts 0 (launches + 1) rest
      else
        (0, launches + 1)
    else if e.connectedAfterLaunch = false then
      (c, launches + 1)
    else
      start_restart_loop max_restarts c (launches + 1) rest

/-! ### Transport launcher (`schedule_mcp_start_task`, `helpers.rs:656`) -/

/-- Model of the three arms of `RunningServiceEnum` (`state.rs`). -/
inductive ServiceKind where
  | noInit
  | withInit
  | withElicitation
deriving DecidableEq, Repr

/-- The shared mutable state the launcher touches: the shared server map
(`AppState.mcp_servers`), the successfully-connected flags
(`AppState.mcp_successfully_connected`) and the PID map
(`AppState.mcp_server_pids`). -/
structure McpState where
  servers : List (String × ServiceKind)
  connected : List (String × Bool)
  pids : List (String × ℕ)

/-- Outcomes of the suspension points inside one `schedule_mcp_start_task`
call: HTTP/SSE connection results, the Jan Browser MCP port probe and orphan
cleanup, the child spawn (`spawnPid` models `process.id()`), the stdio MCP
handshake (`()`.serve`), the stderr drain on handshake failure, and whether
some other task removed the freshly inserted entry during the 500 ms
verification window. -/
structure StartEnv where
  httpConnectOk : Bool
  httpConnectErr : String
  sseTransportOk : Bool
  sseTransportErr : String
  sseConnectOk : Bool
  sseConnectErr : String
  portAvailable : Bool
  orphanCleanup : Except String Bool
  spawnOk : Bool
  spawnErr : String
  spawnPid : Option ℕ
  serveOk : Bool
  stderrRead : Option String
  removedDuringVerification : Bool

/-- Model of `str::parse::<u16>()` on the `BRIDGE_PORT` value. -/
def parse_u16 (s : String) : Option ℕ :=
  s.toNat?.bind (fun n => if n < 65536 then some n else none)

/-- The `BRIDGE_PORT` extraction used by both the port check and the lock
file creation in the stdio branch (`helpers.rs:749`, `helpers.rs:884`). -/
def bridge_port (p : McpServerConfig) : Option ℕ :=
  ((alist_get "BRIDGE_PORT" p.envs).bind JValue.as_str).bind parse_u16

/-- Model of `start_http_mcp_server` (`helpers.rs:582`): on a successful
connect it inserts a `WithElicitation` entry into the shared map and marks
the server in `mcp_successfully_connected`; on failure it returns an error
and leaves the state alone. -/
def start_http_mcp_server (name : String) (st : McpState) (env : StartEnv) :
    Except String Unit × McpState :=
  if env.httpConnectOk then
    (.ok (),
      { st with
        servers := alist_insert name .withElicitation st.servers,
        connected := alist_insert name true st.connected })
  else
    (.error ("Failed to connect to server: " ++ env.httpConnectErr), st)

/-- The Jan Browser MCP port gate at the top of the stdio branch
(`helpers.rs:748`): when the name is `"Jan Browser MCP"`, a `BRIDGE_PORT`
env entry parses as `u16` and the port is occupied, the orphan sweeper
decides whether startup proceeds. -/
def stdio_port_gate (name : String) (p : McpServerConfig) (env : StartEnv) :
    Except String Unit :=
  if name = "Jan Browser MCP" then
    match bridge_port p with
    | some port =>
      if env.portAvailable then .ok ()
      else
        match env.orphanCleanup with
        | .ok true => .ok ()
        | .ok false =>
            .error ("Port " ++ toString port ++
              " is already in use. Please close the application using this port or restart Jan.")
        | .error e => .error e
    | none => .ok ()
  else
    .ok ()

/-- Model of the stdio arm of `schedule_mcp_start_task` (`helpers.rs:747`):
port gate, child spawn (recording the PID when the OS reports one), stdio
MCP handshake (inserting a `NoInit` entry on success, draining stderr into
the error on failure), then the 500 ms verification window re-checking that
the entry is still in the shared map (`removedDuringVerification` models a
concurrent removal).  Lock-file creation failures are only logged and the
`mcp-update` emission has no modelled state, so neither appears. -/
def stdio_start (name : String) (p : McpServerConfig) (st : McpState) (env : StartEnv) :
    Except String Unit × McpState :=
  match stdio_port_gate name p env with
  | .error e => (.error e, st)
  | .ok () =>
    if env.spawnOk = false then
      (.error ("Failed to run command " ++ name ++ ": " ++ env.spawnErr), st)
    else
      let st1 : McpState :=
        match env.spawnPid with
        | some pid => { st with pids := alist_insert name pid st.pids }
        | none => st
      if env.serveOk then
        let st2 : McpState := { st1 with servers := alist_insert name .noInit st1.servers }
        if env.removedDuringVerification then
          (.error ("MCP server " ++ name ++ " quit immediately after starting"),
            { st2 with servers := alist_remove name st2.servers })
        else
          (.ok (), st2)
      else
        (.error (match env.stderrRead with
          | some buffer => "Failed to start MCP server " ++ name ++ ": " ++ buffer
          | none => "Failed to read MCP server " ++ name ++ " stderr"), st1)

/-- Model of `schedule_mcp_start_task` (`helpers.rs:656`): extract the
config, then dispatch on the transport type exactly as the source does —
`type == "http"` with a URL goes to `start_http_mcp_server`, `type == "sse"`
with a URL builds the SSE transport and inserts a `WithInit` entry (without
touching the connected flags), and everything else takes the stdio path. -/
def schedule_mcp_start_task (name : String) (config : JValue) (st : McpState)
    (env : StartEnv) : Except String Unit × McpState :=
  match extract_command_args config with
  | none => (.error ("Failed to extract command args from config for " ++ name), st)
  | some p =>
    if p.transport_type = some "http" ∧ p.url.isSome then
      start_http_mcp_server name st env
    else if p.transport_type = some "sse" ∧ p.url.isSome then
      if env.sseTransportOk = false then
        (.error ("Failed to start SSE transport: " ++ env.sseTransportErr), st)
      else if env.sseConnectOk then
        (.ok (), { st with servers := alist_insert name .withInit st.servers })
      else
        (.error ("Failed to connect to server: " ++ env.sseConnectErr), st)
    else
      stdio_start name p st env

/-- The transport arm `schedule_mcp_start_task` dispatches a config to. -/
def dispatch_transport (p : McpServerConfig) : ServiceKind :=
  if p.transport_type = some "http" ∧ p.url.isSome then .withElicitation
  else if p.transport_type = some "sse" ∧ p.url.isSome then .withInit
  else .noInit

/-! ### Supervisor boot (`run_mcp_commands`, `helpers.rs:225`) -/

/-- Model of the serde `Deserialize` of one `McpSettings` field with
`#[serde(default)]`: a missing field falls back to its default, a present
field must be a `u64`. -/
def settings_field_nat (fields : List (String × JValue)) (key : String) (dflt : ℕ) :
    Option ℕ :=
  match alist_get key fields with
  | none => some dflt
  | some v => v.as_u64

/-- Model of `serde_json::from_value::<McpSettings>` (`models.rs:207`): an
object whose four known fields individually default when absent (the
per-field defaults come from `constants.rs`, which is not under `src/`, so
they are passed in as `dflt`); any type mismatch fails the whole parse. -/
def parse_mcp_settings (dflt : McpSettings) (v : JValue) : Option McpSettings := do
  let fields ← v.as_object
  let t ← settings_field_nat fields "toolCallTimeoutSeconds" dflt.tool_call_timeout_seconds
  let b ← settings_field_nat fields "baseRestartDelayMs" dflt.base_restart_delay_ms
  let m ← settings_field_nat fields "maxRestartDelayMs" dflt.max_restart_delay_ms
  let mult ←
    match alist_get "backoffMultiplier" fields with
    | none => some dflt.backoff_multiplier
    | some (.num q) => some q
    | some _ => none
  pure { tool_call_timeout_seconds := t, base_restart_delay_ms := b,
         max_restart_delay_ms := m, backoff_multiplier := mult }

/-- Model of the config-processing core of `run_mcp_commands`
(`helpers.rs:225`), starting from the parsed JSON (file read and JSON parse
errors are upstream of the claims about it).  The `mcpSettings` subtree is
parsed with `unwrap_or_default` (the default is the `dflt` parameter); the
`mcpServers` subtree is mandatory — its absence is the
`"No mcpServers found in config"` error.  On success it returns the adopted
settings together with the entries whose `active` status is not
`Some(false)` (the servers a startup task is spawned for); per-server
startup failures do not affect the `Ok` result. -/
def run_mcp_commands (dflt : McpSettings) (config : JValue) :
    Except String (McpSettings × List (String × JValue)) :=
  let settings := ((config.get "mcpSettings").bind (parse_mcp_settings dflt)).getD dflt
  match (config.get "mcpServers").bind JValue.as_object with
  | none => .error "No mcpServers found in config"
  | some server_map =>
      .ok (settings, server_map.filter (fun p => extract_active_status p.2 ≠ some false))

/-! ### Orphan sweeper (`kill_orphaned_mcp_process_with_app`, `helpers.rs:979`) -/

/-- Model of `jan_utils::network::ProcessInfo` (only the fields the sweeper
reads). -/
structure ProcessInfo where
  pid : ℕ
  name : String
deriving DecidableEq, Repr

/-- Model of a parsed lock file entry (only the `pid` field is read by the
sweeper). -/
structure LockEntry where
  pid : ℕ
deriving DecidableEq, Repr

/-- Outcomes of the OS and lock-file queries made by
`kill_orphaned_mcp_process_with_app`: the parsed lock file for the port, the
liveness / process-info / MCP-recognition oracles, the process found on the
port by `find_process_using_port`, the result of each `kill_process_by_pid`
call, the stale-lock cleanup and lock-file delete results, and the two
`is_port_available` re-checks after the 500 ms sleeps. -/
structure OrphanEnv where
  lock : Option LockEntry
  alive : ℕ → Bool
  info : ℕ → Option ProcessInfo
  orphanedMcp : ProcessInfo → Bool
  portProcess : Option ProcessInfo
  killOk : ℕ → Bool
  killErr : ℕ → String
  cleanupResult : Except String Unit
  deleteLockResult : Except String Unit
  portFreeAfterLockKill : Bool
  portFreeAfterFallbackKill : Bool

/-- The error message built for a foreign process occupying the port
(`helpers.rs:1055`). -/
def foreign_port_error (port : ℕ) (pi : ProcessInfo) : String :=
  "Port " ++ toString port ++ " is in use by another application '" ++ pi.name ++
    "' (PID " ++ toString pi.pid ++ "). Please close that application or use a different port."

/-- Model of the `lsof`/`netstat` fallback of
`kill_orphaned_mcp_process_with_app` (`helpers.rs:1035`).  `kills`
accumulates every PID a `kill_process_by_pid` call was issued for. -/
def orphan_fallback (port : ℕ) (env : OrphanEnv) (kills : List ℕ) :
    Except String Bool × List ℕ :=
  match env.portProcess with
  | none => (.ok false, kills)
  | some pi =>
    if env.orphanedMcp pi = false then
      (.error (foreign_port_error port pi), kills)
    else
      let kills2 := kills ++ [pi.pid]
      if env.killOk pi.pid = false then
        (.error (env.killErr pi.pid), kills2)
      else if env.portFreeAfterFallbackKill then
        (.ok true, kills2)
      else
        (.error ("Port " ++ toString port ++ " still in use after killing process"), kills2)

/-- Model of `kill_orphaned_mcp_process_with_app` (`helpers.rs:979`): the
lock-file fast path (dead PID → stale cleanup and `Ok(true)`; live PID
recognized as an MCP process → kill it, delete the lock, and fall through to
the port lookup if the port is still busy; live PID not recognized, or no
process info → stale cleanup and fall through), then the
`find_process_using_port` fallback.  The second component lists every PID
that was sent a kill. -/
def kill_orphaned_mcp_process_with_app (port : ℕ) (env : OrphanEnv) :
    Except String Bool × List ℕ :=
  match env.lock with
  | none => orphan_fallback port env []
  | some lock =>
    if env.alive lock.pid = false then
      match env.cleanupResult with
      | .ok () => (.ok true, [])
      | .error e => (.error e, [])
    else
      match env.info lock.pid with
      | some pinfo =>
        if env.orphanedMcp pinfo then
          let kills := [lock.pid]
          if env.killOk lock.pid = false then
            (.error (env.killErr lock.pid), kills)
          else
            match env.deleteLockResult with
            | .error e => (.error e, kills)
            | .ok () =>
              if env.portFreeAfterLockKill then (.ok true, kills)
              else orphan_fallback port env kills
        else
          match env.cleanupResult with
          | .ok () => orphan_fallback port env []
          | .error e => (.error e, [])
      | none =>
        match env.cleanupResult with
        | .ok () => orphan_fallback port env []
        | .error e => (.error e, [])

/-- Characterization of the environments in which the lock-file fast path of
`kill_orphaned_mcp_process_with_app` does not resolve the port itself but
falls through to the `find_process_using_port` lookup: no lock file; or a
lock file whose PID is alive but has no process info, or is not recognized
as an MCP process (stale-cleanup succeeding); or a lock file whose
recognized MCP process was killed and the lock deleted, yet the port is
still occupied.  This is the claim's "no applicable lock file resolves
it". -/
def lock_path_falls_through (env : OrphanEnv) : Prop :=
  env.lock = none ∨
  (∃ l, env.lock = some l ∧ env.alive l.pid = true ∧
    ((env.info l.pid = none ∧ env.cleanupResult = .ok ()) ∨
     (∃ i, env.info l.pid = some i ∧ env.orphanedMcp i = false ∧
        env.cleanupResult = .ok ()) ∨
     (∃ i, env.info l.pid = some i ∧ env.orphanedMcp i = true ∧
        env.killOk l.pid = true ∧ env.deleteLockResult = .ok () ∧
        env.portFreeAfterLockKill = false)))

/-! ### Shutdown (`stop_mcp_servers_with_context`, `helpers.rs:1158`) -/

/-- Model of `ShutdownContext` (`helpers.rs:192`). -/
inductive ShutdownContext where
  | appExit
  | manualRestart
  | factoryReset
deriving DecidableEq, Repr

/-- Model of `ShutdownContext::per_server_timeout` in milliseconds. -/
def ShutdownContext.per_server_timeout : ShutdownContext → ℕ
  | .appExit => 500
  | .manualRestart => 2000
  | .factoryReset => 5000

/-- Model of `ShutdownContext::overall_timeout` in milliseconds. -/
def ShutdownContext.overall_timeout : ShutdownContext → ℕ
  | .appExit => 1500
  | .manualRestart => 5000
  | .factoryReset => 10000

/-- Outcome of one per-server stop task (`helpers.rs:1228`): `completed b`
models the task joining with `(name, b)` where `b` is
`timeout(per_server_timeout, cancel).map(is_ok).unwrap_or(false)`;
`joinError` models the task itself failing to join. -/
inductive StopTaskOutcome where
  | completed : Bool → StopTaskOutcome
  | joinError
deriving DecidableEq, Repr

/-- Environment of one `stop_mcp_servers_with_context` call: the re-entrancy
flag `mcp_shutdown_in_progress` as found on entry, the per-server stop task
outcomes, whether `join_all` hit the overall timeout, and the result of each
force-kill (its error is only logged). -/
structure StopEnv where
  shutdownInProgress : Bool
  outcome : String → StopTaskOutcome
  overallTimedOut : Bool
  killOk : ℕ → Bool

/-- Result of the `stop_mcp_servers_with_context` model: the returned
`Result`, the final shared map and PID map, the list of servers whose
graceful cancel was considered failed, and every PID a force-kill was issued
for. -/
structure StopResultModel where
  result : Except String Unit
  servers : List (String × ServiceKind)
  pids : List (String × ℕ)
  failed : List String
  kills : List ℕ

/-- Model of `stop_mcp_servers_with_context` (`helpers.rs:1158`): early `Ok`
when a shutdown is already in progress; otherwise snapshot the PID map,
drain the shared map (early `Ok` when it was empty), run one cancel task per
server, declare failed the tasks that completed with `success = false` — or
all of them when the overall timeout fired — force-kill each failed server's
snapshotted PID (kill errors only logged), drop all drained names from the
PID map, and return `Ok`.  Monitoring-task aborts, lock-file deletion and
the settle sleeps have no modelled state. -/
def stop_mcp_servers_with_context (_ctx : ShutdownContext) (st : McpState)
    (env : StopEnv) : StopResultModel :=
  if env.shutdownInProgress then
    { result := .ok (), servers := st.servers, pids := st.pids, failed := [], kills := [] }
  else
    let pids_snapshot := st.pids
    let names := st.servers.map Prod.fst
    if names.isEmpty then
      { result := .ok (), servers := [], pids := st.pids, failed := [], kills := [] }
    else
      let failed :=
        if env.overallTimedOut then names
        else names.filter (fun n =>
          match env.outcome n with
          | .completed false => true
          | _ => false)
      let kills := failed.filterMap (fun n => alist_get n pids_snapshot)
      let final_pids := pids_snapshot.filter (fun q => (names.contains q.1) = false)
      { result := .ok (), servers := [], pids := final_pids, failed := failed, kills := kills }

/-! ### Concrete example inputs used by counterexamples and witnesses -/

/-- Launcher environment in which every suspension point succeeds: the HTTP
and SSE connects succeed, the child spawns with PID 42, the stdio handshake
succeeds and the entry survives the verification window. -/
def sampleStartEnvOk : StartEnv :=
  { httpConnectOk := true, httpConnectErr := "", sseTransportOk := true,
    sseTransportErr := "", sseConnectOk := true, sseConnectErr := "",
    portAvailable := true, orphanCleanup := .ok false, spawnOk := true,
    spawnErr := "", spawnPid := some 42, serveOk := true, stderrRead := none,
    removedDuringVerification := false }

/-- Launcher environment in which the child spawns (PID 42) but the stdio
MCP handshake fails and stderr reads back `"crash"`. -/
def sampleStartEnvServeFail : StartEnv :=
  { sampleStartEnvOk with serveOk := false, stderrRead := some "crash" }

/-- A minimal stdio server config: `{"command": "echo", "args": []}`. -/
def cfgStdio : JValue :=
  JValue.obj [("command", JValue.str "echo"), ("args", JValue.arr [])]

/-- The result of `extract_command_args` on `cfgStdio`. -/
def cfgStdioParams : McpServerConfig :=
  { transport_type := none, url := none, command := "echo", args := [],
    envs := [], timeout := none, headers := [] }

/-- An HTTP server config:
`{"command": "", "args": [], "type": "http", "url": "http://localhost:1234/mcp"}`. -/
def cfgHttp : JValue :=
  JValue.obj [("command", JValue.str ""), ("args", JValue.arr []),
    ("type", JValue.str "http"), ("url", JValue.str "http://localhost:1234/mcp")]

/-- The result of `extract_command_args` on `cfgHttp`. -/
def cfgHttpParams : McpServerConfig :=
  { transport_type := some "http", url := some "http://localhost:1234/mcp",
    command := "", args := [], envs := [], timeout := none, headers := [] }

/-- The empty launcher state: no running servers, no flags, no PIDs. -/
def emptyMcpState : McpState :=
  { servers := [], connected := [], pids := [] }

/-- A foreign process occupying a port: `nginx` with PID 99. -/
def foreignProc : ProcessInfo :=
  { pid := 99, name := "nginx" }

/-- Orphan-sweeper environment for a port occupied by `foreignProc` with no
lock file present. -/
def sampleOrphanEnv : OrphanEnv :=
  { lock := none, alive := fun _ => true, info := fun _ => some foreignProc,
    orphanedMcp := fun _ => false, portProcess := some foreignProc,
    killOk := fun _ => true, killErr := fun _ => "", cleanupResult := .ok (),
    deleteLockResult := .ok (), portFreeAfterLockKill := true,
    portFreeAfterFallbackKill := true }

/-- Shutdown state with one running stdio server `"a"` whose PID 7 is
recorded. -/
def sampleStopState : McpState :=
  { servers := [("a", .noInit)], connected := [("a", true)], pids := [("a", 7)] }

/-- Shutdown environment: no shutdown already in progress, every cancel task
completes unsuccessfully, no overall timeout. -/
def sampleStopEnv : StopEnv :=
  { shutdownInProgress := false, outcome := fun _ => .completed false,
    overallTimedOut := false, killOk := fun _ => true }

/-! ### Association-list lemmas -/

theorem alist_get_insert_self {α : Type} (k : String) (v : α) (l : List (String × α)) :
    alist_get k (alist_insert k v l) = some v := by
  simp [alist_insert, alist_get]

theorem alist_get_remove_self {α : Type} (k : String) (l : List (String × α)) :
    alist_get k (alist_remove k l) = none := by
  induction l with
  | nil => rfl
  | cons p rest ih =>
      by_cases h : p.1 = k
      · simpa [alist_remove, h] using ih
      · simpa [alist_remove, alist_get, h] using ih

/-! ### Claim C4 — exponential backoff schedule -/

/-- Claim C4, counterexample.  The claim states that for `k = 0` the delay
equals `base_ms`, for every settings value; but
`calculate_exponential_backoff_delay` applies the `min(max_delay)` cap on
the `k = 0` branch as well: with `base = 5000`, `max = 1000` the delay at
`k = 0` is `1000`, not `5000`. -/
theorem C4_counterexample :
    calculate_exponential_backoff_delay 0
        { tool_call_timeout_seconds := 30, base_restart_delay_ms := 5000,
          max_restart_delay_ms := 1000, backoff_multiplier := 2 } = 1000 ∧
    calculate_exponential_backoff_delay 0
        { tool_call_timeout_seconds := 30, base_restart_delay_ms := 5000,
          max_restart_delay_ms := 1000, backoff_multiplier := 2 } ≠ 5000 := by
  constructor
  · rfl
  · decide

/-- Claim C4, amended: with the settings `base = 1000 ms`, `max = 30000 ms`,
`multiplier = 2.0` the delays for attempts `k = 1..6` are exactly
`1000, 2000, 4000, 8000, 16000, 30000`; in general for `k ≥ 1` the delay is
`min(max_ms, ⌊base_ms * multiplier^(k-1)⌋)` (the product truncated to integer
milliseconds, as by the `as u64` cast), and for `k = 0` it is
`min(base_ms, max_ms)` — the `max` cap applies to the `k = 0` case too. -/
theorem C4_amended_backoff_schedule :
    (∀ (s : McpSettings) (k : ℕ), 1 ≤ k →
      calculate_exponential_backoff_delay k s =
        min s.max_restart_delay_ms
          ⌊(s.base_restart_delay_ms : ℚ) * s.backoff_multiplier ^ (k - 1)⌋₊) ∧
    (∀ s : McpSettings, calculate_exponential_backoff_delay 0 s =
      min s.base_restart_delay_ms s.max_restart_delay_ms) ∧
    (calculate_exponential_backoff_delay 1 ⟨30, 1000, 30000, 2⟩ = 1000 ∧
     calculate_exponential_backoff_delay 2 ⟨30, 1000, 30000, 2⟩ = 2000 ∧
     calculate_exponential_backoff_delay 3 ⟨30, 1000, 30000, 2⟩ = 4000 ∧
     calculate_exponential_backoff_delay 4 ⟨30, 1000, 30000, 2⟩ = 8000 ∧
     calculate_exponential_backoff_delay 5 ⟨30, 1000, 30000, 2⟩ = 16000 ∧
     calculate_exponential_backoff_delay 6 ⟨30, 1000, 30000, 2⟩ = 30000) := by
  refine ⟨?_, ?_, ?_⟩
  · intro s k hk
    have hk0 : k ≠ 0 := by omega
    simp [calculate_exponential_backoff_delay, hk0, Nat.min_comm]
  · intro s
    simp [calculate_exponential_backoff_delay, Nat.min_comm]
  · refine ⟨?_, ?_, ?_, ?_, ?_, ?_⟩ <;> norm_num [calculate_exponential_backoff_delay]

/-- Witness for the amended claim C4: `k = 1` satisfies `1 ≤ k`, and the
theorem applied there yields the closed-form delay. -/
theorem C4_witness :
    1 ≤ 1 ∧
    calculate_exponential_backoff_delay 1 ⟨30, 1000, 30000, 2⟩ =
      min (30000 : ℕ) ⌊((1000 : ℕ) : ℚ) * (2 : ℚ) ^ (1 - 1)⌋₊ :=
  ⟨by decide, C4_amended_backoff_schedule.1 ⟨30, 1000, 30000, 2⟩ 1 (by decide)⟩

/-! ### Claim C2 — monitor quit reason vs. restart engine -/

/-- Claim C2, counterexample.  A graceful departure (entry removed from the
shared map by another party) makes the monitor return `Some(Closed)` — not a
sentinel the restart engine stops on: the engine's `match` treats every
`Some(_)` as unexpected termination and continues the loop
(`should_restart = true`). -/
theorem C2_counterexample :
    monitor_mcp_server_handle [MonitorObs.entryAbsent] = some (some QuitReason.closed) ∧
    should_restart_after_quit (some QuitReason.closed) = true :=
  ⟨rfl, rfl⟩

/-- Claim C2, amended: every exit of the health monitor — the graceful
departure included — returns the same value `Some(Closed)`, which the
restart engine treats as unexpected termination and continues its loop; the
engine stops only on a `None` quit reason, which the monitor never
produces. -/
theorem C2_amended_monitor_quit_reason :
    (∀ (obs : List MonitorObs) (r : Option QuitReason),
        monitor_mcp_server_handle obs = some r →
        r = some QuitReason.closed ∧ should_restart_after_quit r = true) ∧
    should_restart_after_quit none = false := by
  constructor
  · intro obs r h
    have hr : r = some QuitReason.closed := by
      induction obs with
      | nil => exact absurd h (by simp [monitor_mcp_server_handle])
      | cons o rest ih =>
          cases o with
          | shutdownSet =>
              simp only [monitor_mcp_server_handle, Option.some.injEq] at h
              exact h.symm
          | entryAbsent =>
              simp only [monitor_mcp_server_handle, Option.some.injEq] at h
              exact h.symm
          | probeFailed =>
              simp only [monitor_mcp_server_handle, Option.some.injEq] at h
              exact h.symm
          | probeOk => exact ih h
    exact ⟨hr, by rw [hr]; rfl⟩
  · rfl

/-- Witness for the amended claim C2, at the graceful-departure trace. -/
theorem C2_witness :
    monitor_mcp_server_handle [MonitorObs.entryAbsent] = some (some QuitReason.closed) ∧
    (some QuitReason.closed = some QuitReason.closed ∧
     should_restart_after_quit (some QuitReason.closed) = true) :=
  ⟨rfl, C2_amended_monitor_quit_reason.1 [MonitorObs.entryAbsent] (some QuitReason.closed) rfl⟩

/-! ### Claim C3 — elicitation reply handling -/

/-- Claim C3, counterexample.  The reply arm of `create_elicitation` passes
`response.content` through unconditionally: a `Decline` reply carrying
content produces a `Decline` result that still carries the content, so
content is not returned "only when the action is Accept". -/
theorem C3_counterexample :
    (create_elicitation [] "id0" "srv" "msg" JValue.null true
        (fun t => resolve_elicitation t "id0")
        (.reply { action := .decline, content := some (JValue.str "data") })).1.action =
      ElicitationAction.decline ∧
    (create_elicitation [] "id0" "srv" "msg" JValue.null true
        (fun t => resolve_elicitation t "id0")
        (.reply { action := .decline, content := some (JValue.str "data") })).1.content =
      some (JValue.str "data") :=
  ⟨rfl, rfl⟩

/-- Claim C3, amended: for every elicitation whose UI reply arrives before
the timeout, the pending entry is gone from the table afterwards (removed by
the reply-delivering UI command, not by the reply arm of
`create_elicitation` itself), the reply's action (Accept, Decline, Cancel)
is returned unchanged, and the reply's content is passed through unchanged
whatever the action is. -/
theorem C3_amended_reply_passthrough (pending : PendingTable)
    (eid server message : String) (schema : JValue) (r : ElicitResponse) :
    (create_elicitation pending eid server message schema true
        (fun t => resolve_elicitation t eid) (.reply r)).1.action =
      map_elicit_action r.action ∧
    (create_elicitation pending eid server message schema true
        (fun t => resolve_elicitation t eid) (.reply r)).1.content = r.content ∧
    alist_get eid (create_elicitation pending eid server message schema true
        (fun t => resolve_elicitation t eid) (.reply r)).2 = none := by
  refine ⟨rfl, rfl, ?_⟩
  simp [create_elicitation, resolve_elicitation, alist_get_remove_self]

/-! ### Claim C7 — elicitation timeout and channel drop -/

/-- Claim C7, confirmed: when the 300 s timeout fires or the reply channel
is dropped, `create_elicitation` returns `Cancel` with no content and the
pending table no longer contains the elicitation id (whatever other tasks
did to the table during the await). -/
theorem C7_timeout_returns_cancel (pending : PendingTable)
    (eid server message : String) (schema : JValue)
    (concurrent : PendingTable → PendingTable) :
    ((create_elicitation pending eid server message schema true concurrent .timedOut).1 =
        { action := .cancel, content := none } ∧
      alist_get eid
        (create_elicitation pending eid server message schema true concurrent .timedOut).2 =
        none) ∧
    ((create_elicitation pending eid server message schema true concurrent .channelClosed).1 =
        { action := .cancel, content := none } ∧
      alist_get eid
        (create_elicitation pending eid server message schema true concurrent
          .channelClosed).2 = none) := by
  refine ⟨⟨rfl, ?_⟩, ⟨rfl, ?_⟩⟩ <;>
    simp [create_elicitation, alist_get_remove_self]

/-! ### Claim C5 — flap guard for never-connected servers -/

/-- Claim C5, confirmed: if the server's successfully-connected flag reads
`false` at every point the restart loop consults it (a server that never
produced a verified success), the loop makes at most one
`schedule_mcp_start_task` call and the restart counter never exceeds one. -/
theorem C5_flap_guard (max_restarts : ℕ) (envs : List RestartIterEnv)
    (h : ∀ e ∈ envs, e.connectedAfterLaunch = false) :
    (start_restart_loop max_restarts 0 0 envs).2 ≤ 1 ∧
    (start_restart_loop max_restarts 0 0 envs).1 ≤ 1 := by
  cases envs with
  | nil => simp [start_restart_loop]
  | cons e rest =>
      have he := h e (List.mem_cons_self e rest)
      by_cases hm : 0 + 1 > max_restarts
      · simp [start_restart_loop, hm]
      · by_cases hl : e.launchOk <;> simp [start_restart_loop, hm, hl, he]

/-- Witness for claim C5: a two-iteration trace in which the launch first
fails and then would succeed unverified; the loop still stops within one
attempt. -/
theorem C5_witness :
    (∀ e ∈ ([⟨false, false, false, none⟩, ⟨true, false, false, none⟩] :
        List RestartIterEnv), e.connectedAfterLaunch = false) ∧
    ((start_restart_loop 5 0 0
        [⟨false, false, false, none⟩, ⟨true, false, false, none⟩]).2 ≤ 1 ∧
     (start_restart_loop 5 0 0
        [⟨false, false, false, none⟩, ⟨true, false, false, none⟩]).1 ≤ 1) :=
  ⟨by decide, C5_flap_guard 5 _ (by decide)⟩

/-! ### Claim C6 — missing `mcpServers` subtree -/

/-- Claim C6, counterexample.  On a well-formed JSON config without the
`mcpServers` subtree, `run_mcp_commands` does not apply defaults and
succeed: it returns the error `"No mcpServers found in config"`. -/
theorem C6_counterexample :
    run_mcp_commands ⟨30, 1000, 30000, 2⟩ (JValue.obj []) =
      .error "No mcpServers found in config" := rfl

/-- Claim C6, amended: the `mcpSettings` subtree is optional (missing →
the default settings are adopted), but the `mcpServers` subtree is not:
when it is absent (or not an object), `run_mcp_commands` returns the error
`"No mcpServers found in config"` instead of succeeding with no servers. -/
theorem C6_amended_missing_subtrees :
    (∀ (dflt : McpSettings) (config : JValue),
        (config.get "mcpServers").bind JValue.as_object = none →
        run_mcp_commands dflt config = .error "No mcpServers found in config") ∧
    (∀ (dflt : McpSettings) (config : JValue)
        (out : McpSettings × List (String × JValue)),
        config.get "mcpSettings" = none →
        run_mcp_commands dflt config = .ok out → out.1 = dflt) := by
  constructor
  · intro dflt config h
    simp [run_mcp_commands, h]
  · intro dflt config out hs hok
    unfold run_mcp_commands at hok
    rw [hs] at hok
    cases hsrv : (config.get "mcpServers").bind JValue.as_object with
    | none => rw [hsrv] at hok; exact absurd hok (by simp)
    | some server_map =>
        rw [hsrv] at hok
        simp only [Except.ok.injEq] at hok
        rw [← hok]
        rfl

/-- Witness for the amended claim C6 at the empty JSON object. -/
theorem C6_witness :
    (JValue.get (JValue.obj []) "mcpServers").bind JValue.as_object = none ∧
    run_mcp_commands ⟨30, 1000, 30000, 2⟩ (JValue.obj []) =
      .error "No mcpServers found in config" :=
  ⟨rfl, C6_amended_missing_subtrees.1 ⟨30, 1000, 30000, 2⟩ (JValue.obj []) rfl⟩

/-! ### Launcher lemmas shared by claims C1 and C10 -/

theorem stdio_start_connected_eq (name : String) (p : McpServerConfig) (st : McpState)
    (env : StartEnv) : (stdio_start name p st env).2.connected = st.connected := by
  unfold stdio_start
  cases hg : stdio_port_gate name p env with
  | error e => simp [hg]
  | ok u =>
      cases u
      cases hpid : env.spawnPid <;>
        by_cases hs : env.spawnOk = false <;>
          by_cases hv : env.serveOk <;>
            by_cases hr : env.removedDuringVerification <;>
              simp [hg, hpid, hs, hv, hr]

theorem stdio_start_ok_servers (name : String) (p : McpServerConfig) (st : McpState)
    (env : StartEnv) (h : (stdio_start name p st env).1 = .ok ()) :
    alist_get name (stdio_start name p st env).2.servers = some ServiceKind.noInit := by
  unfold stdio_start at h ⊢
  cases hg : stdio_port_gate name p env with
  | error e => simp [hg] at h
  | ok u =>
      cases u
      cases hpid : env.spawnPid <;>
        by_cases hs : env.spawnOk = false <;>
          by_cases hv : env.serveOk <;>
            by_cases hr : env.removedDuringVerification <;>
              simp [hg, hpid, hs, hv, hr, alist_get_insert_self] at h ⊢

/-! ### Claim C1 — state effects of a successful launch -/

/-- Claim C1, counterexample.  A successful stdio launch inserts the entry
into the shared map but never touches `mcp_successfully_connected`: with an
empty initial state the flag is still absent (`none`, never set to `true`)
after `schedule_mcp_start_task` returns success. -/
theorem C1_counterexample :
    (schedule_mcp_start_task "srv" cfgStdio emptyMcpState sampleStartEnvOk).1 = .ok () ∧
    alist_get "srv"
      (schedule_mcp_start_task "srv" cfgStdio emptyMcpState sampleStartEnvOk).2.connected =
      none :=
  ⟨rfl, rfl⟩

/-- Claim C1, amended: whenever `schedule_mcp_start_task` returns success,
the new entry is in the shared server map — for every transport — but the
successfully-connected flag is set to `true` only by the http arm
(`start_http_mcp_server`); the sse and stdio arms leave the flag map
unchanged. -/
theorem C1_amended_launch_effects (name : String) (config : JValue) (st : McpState)
    (env : StartEnv) (p : McpServerConfig)
    (hp : extract_command_args config = some p)
    (hok : (schedule_mcp_start_task name config st env).1 = .ok ()) :
    alist_contains name (schedule_mcp_start_task name config st env).2.servers = true ∧
    (schedule_mcp_start_task name config st env).2.connected =
      (if dispatch_transport p = ServiceKind.withElicitation then
        alist_insert name true st.connected
      else st.connected) := by
  unfold schedule_mcp_start_task at hok ⊢
  rw [hp] at hok ⊢
  unfold dispatch_transport
  by_cases h1 : p.transport_type = some "http" ∧ p.url.isSome
  · simp only [h1, and_self, if_true] at hok ⊢
    unfold start_http_mcp_server at hok ⊢
    by_cases hc : env.httpConnectOk <;>
      simp [hc, alist_contains, alist_get_insert_self] at hok ⊢
  · simp only [h1, if_false] at hok ⊢
    by_cases h2 : p.transport_type = some "sse" ∧ p.url.isSome
    · simp only [h2, and_self, if_true] at hok ⊢
      by_cases ht : env.sseTransportOk = false
      · simp [ht] at hok
      · simp only [ht, if_false] at hok ⊢
        by_cases hc : env.sseConnectOk <;>
          simp [hc, alist_contains, alist_get_insert_self,
            show ServiceKind.withInit ≠ ServiceKind.withElicitation from by decide]
            at hok ⊢
    · simp only [h2, if_false] at hok ⊢
      have hs := stdio_start_ok_servers name p st env hok
      have hc := stdio_start_connected_eq name p st env
      simp [alist_contains, hs, hc,
        show ServiceKind.noInit ≠ ServiceKind.withElicitation from by decide]

/-- Witness for the amended claim C1: the http config `cfgHttp` launched
into the empty state with a successful connect. -/
theorem C1_witness :
    extract_command_args cfgHttp = some cfgHttpParams ∧
    (schedule_mcp_start_task "h" cfgHttp emptyMcpState sampleStartEnvOk).1 = .ok () ∧
    (alist_contains "h"
        (schedule_mcp_start_task "h" cfgHttp emptyMcpState sampleStartEnvOk).2.servers =
        true ∧
      (schedule_mcp_start_task "h" cfgHttp emptyMcpState sampleStartEnvOk).2.connected =
        (if dispatch_transport cfgHttpParams = ServiceKind.withElicitation then
          alist_insert "h" true emptyMcpState.connected
        else emptyMcpState.connected)) :=
  ⟨rfl, rfl, C1_amended_launch_effects "h" cfgHttp emptyMcpState sampleStartEnvOk
    cfgHttpParams rfl rfl⟩

/-! ### Claim C10 — PID registration survives a handshake failure -/

/-- Claim C10, confirmed: on the stdio path, when the child spawns (the OS
reports a PID) but the MCP handshake fails, `schedule_mcp_start_task`
returns an error while the spawned child's PID is (still) recorded in the
PID map — the error path does not roll the registration back. -/
theorem C10_pid_survives_handshake_failure (name : String) (config : JValue)
    (st : McpState) (env : StartEnv) (p : McpServerConfig) (pid : ℕ)
    (hp : extract_command_args config = some p)
    (hdisp : dispatch_transport p = ServiceKind.noInit)
    (hgate : stdio_port_gate name p env = .ok ())
    (hspawn : env.spawnOk = true)
    (hpid : env.spawnPid = some pid)
    (hserve : env.serveOk = false) :
    (∃ e, (schedule_mcp_start_task name config st env).1 = .error e) ∧
    alist_get name (schedule_mcp_start_task name config st env).2.pids = some pid := by
  have h1 : ¬(p.transport_type = some "http" ∧ p.url.isSome) := by
    intro hcon
    rw [dispatch_transport, if_pos hcon] at hdisp
    exact absurd hdisp (by decide)
  have h2 : ¬(p.transport_type = some "sse" ∧ p.url.isSome) := by
    intro hcon
    rw [dispatch_transport] at hdisp
    rw [if_neg h1, if_pos hcon] at hdisp
    exact absurd hdisp (by decide)
  unfold schedule_mcp_start_task
  rw [hp]
  simp only [h1, h2, if_false]
  unfold stdio_start
  rw [hgate]
  simp [hspawn, hpid, hserve, alist_get_insert_self]

/-- Witness for claim C10: `cfgStdio` with a spawned PID 42 and a failed
handshake. -/
theorem C10_witness :
    extract_command_args cfgStdio = some cfgStdioParams ∧
    dispatch_transport cfgStdioParams = ServiceKind.noInit ∧
    ((∃ e, (schedule_mcp_start_task "srv" cfgStdio emptyMcpState
        sampleStartEnvServeFail).1 = .error e) ∧
      alist_get "srv" (schedule_mcp_start_task "srv" cfgStdio emptyMcpState
        sampleStartEnvServeFail).2.pids = some 42) :=
  ⟨rfl, rfl, C10_pid_survives_handshake_failure "srv" cfgStdio emptyMcpState
    sampleStartEnvServeFail cfgStdioParams 42 rfl rfl rfl rfl rfl rfl⟩

/-! ### Claim C8 — foreign process on the bridge port -/

theorem string_append_assoc (a b c : String) : a ++ b ++ c = a ++ (b ++ c) := by
  apply String.ext
  simp [String.data_append]

theorem orphan_fallback_foreign (port : ℕ) (env : OrphanEnv) (procInfo : ProcessInfo)
    (kills : List ℕ) (hport : env.portProcess = some procInfo)
    (hforeign : env.orphanedMcp procInfo = false) :
    orphan_fallback port env kills = (.error (foreign_port_error port procInfo), kills) := by
  simp [orphan_fallback, hport, hforeign]

/-- Claim C8, confirmed: when the process occupying the port is not
recognized as one of this application's MCP processes and no applicable lock
file resolves the port, `kill_orphaned_mcp_process_with_app` returns the
error naming the foreign process and its PID — the message contains both the
process name and the PID — and no kill is ever issued against that foreign
PID. -/
theorem C8_foreign_process_error_no_kill (port : ℕ) (env : OrphanEnv)
    (procInfo : ProcessInfo)
    (hfall : lock_path_falls_through env)
    (hport : env.portProcess = some procInfo)
    (hforeign : env.orphanedMcp procInfo = false)
    (hinfo : env.info procInfo.pid = some procInfo) :
    (kill_orphaned_mcp_process_with_app port env).1 =
      .error (foreign_port_error port procInfo) ∧
    procInfo.pid ∉ (kill_orphaned_mcp_process_with_app port env).2 ∧
    (∃ s1 s2, foreign_port_error port procInfo = s1 ++ procInfo.name ++ s2) ∧
    (∃ s3 s4, foreign_port_error port procInfo = s3 ++ toString procInfo.pid ++ s4) := by
  have hname : ∃ s1 s2, foreign_port_error port procInfo = s1 ++ procInfo.name ++ s2 := by
    refine ⟨"Port " ++ toString port ++ " is in use by another application '",
      "' (PID " ++ toString procInfo.pid ++
        "). Please close that application or use a different port.", ?_⟩
    simp [foreign_port_error, string_append_assoc]
  have hpid : ∃ s3 s4, foreign_port_error port procInfo = s3 ++ toString procInfo.pid ++ s4 := by
    refine ⟨"Port " ++ toString port ++ " is in use by another application '" ++
      procInfo.name ++ "' (PID ",
      "). Please close that application or use a different port.", ?_⟩
    simp [foreign_port_error, string_append_assoc]
  have hfb := orphan_fallback_foreign port env procInfo [] hport hforeign
  rcases hfall with hnone | ⟨l, hl, halive, hcase⟩
  · rw [kill_orphaned_mcp_process_with_app, hnone, hfb]
    exact ⟨rfl, by simp, hname, hpid⟩
  · rw [kill_orphaned_mcp_process_with_app, hl]
    rcases hcase with ⟨hinfol, hclean⟩ | ⟨i, hinfol, horph, hclean⟩ |
        ⟨i, hinfol, horph, hkill, hdel, hbusy⟩
    · refine ⟨?_, ?_, hname, hpid⟩ <;>
        simp [halive, hinfol, hclean, hfb]
    · refine ⟨?_, ?_, hname, hpid⟩ <;>
        simp [halive, hinfol, horph, hclean, hfb]
    · have hlneq : l.pid ≠ procInfo.pid := by
        intro heq
        rw [heq, hinfo] at hinfol
        cases hinfol
        rw [hforeign] at horph
        cases horph
      have hfb2 := orphan_fallback_foreign port env procInfo [l.pid] hport hforeign
      refine ⟨?_, ?_, hname, hpid⟩ <;>
        simp [halive, hinfol, horph, hkill, hdel, hbusy, hfb2, hlneq, Ne.symm hlneq]

/-- Witness for claim C8: port 41700 occupied by `nginx` (PID 99), no lock
file present. -/
theorem C8_witness :
    lock_path_falls_through sampleOrphanEnv ∧
    ((kill_orphaned_mcp_process_with_app 41700 sampleOrphanEnv).1 =
        .error (foreign_port_error 41700 foreignProc) ∧
      foreignProc.pid ∉ (kill_orphaned_mcp_process_with_app 41700 sampleOrphanEnv).2 ∧
      (∃ s1 s2, foreign_port_error 41700 foreignProc = s1 ++ foreignProc.name ++ s2) ∧
      (∃ s3 s4, foreign_port_error 41700 foreignProc =
          s3 ++ toString foreignProc.pid ++ s4)) :=
  ⟨Or.inl rfl,
    C8_foreign_process_error_no_kill 41700 sampleOrphanEnv foreignProc (Or.inl rfl)
      rfl rfl rfl⟩

/-! ### Claim C9 — shutdown never errors and force-kills laggards -/

/-- Claim C9, confirmed: `stop_mcp_servers_with_context` returns `Ok` on
every exit path, and — when it is actually performing the shutdown — every
server whose graceful cancel completed unsuccessfully (cancel error or
per-server timeout) or was lost to the overall timeout gets a force-kill
issued for its recorded PID. -/
theorem C9_stop_never_errors (ctx : ShutdownContext) (st : McpState) (env : StopEnv) :
    (stop_mcp_servers_with_context ctx st env).result = .ok () ∧
    (∀ (n : String) (pid : ℕ), env.shutdownInProgress = false →
      n ∈ st.servers.map Prod.fst →
      (env.overallTimedOut = true ∨ env.outcome n = .completed false) →
      alist_get n st.pids = some pid →
      pid ∈ (stop_mcp_servers_with_context ctx st env).kills) := by
  constructor
  · unfold stop_mcp_servers_with_context
    dsimp only
    split
    · rfl
    · split <;> rfl
  · intro n pid hs hn hfail hpid
    unfold stop_mcp_servers_with_context
    simp only [hs, Bool.false_eq_true, if_false]
    have hne : (st.servers.map Prod.fst).isEmpty = false := by
      cases hmap : st.servers.map Prod.fst with
      | nil => rw [hmap] at hn; cases hn
      | cons a rest => simp [List.isEmpty]
    rw [hne]
    simp only [Bool.false_eq_true, if_false]
    have hmem : n ∈ (if env.overallTimedOut then st.servers.map Prod.fst
        else (st.servers.map Prod.fst).filter (fun m =>
          match env.outcome m with
          | .completed false => true
          | _ => false)) := by
      by_cases ht : env.overallTimedOut
      · simp [ht, hn]
      · rcases hfail with ht2 | hout
        · exact absurd ht2 (by simpa using ht)
        · simp only [ht, if_false]
          refine List.mem_filter.2 ⟨hn, ?_⟩
          rw [hout]
    exact List.mem_filterMap.2 ⟨n, hmem, hpid⟩

/-- Witness for claim C9: one server `"a"` with PID 7 whose cancel fails. -/
theorem C9_witness :
    ((stop_mcp_servers_with_context .appExit sampleStopState sampleStopEnv).result =
        .ok ()) ∧
    7 ∈ (stop_mcp_servers_with_context .appExit sampleStopState sampleStopEnv).kills :=
  ⟨(C9_stop_never_errors .appExit sampleStopState sampleStopEnv).1,
    (C9_stop_never_errors .appExit sampleStopState sampleStopEnv).2 "a" 7 rfl
      (by simp [sampleStopState]) (Or.inr rfl) rfl⟩

end Jan
